import Mathlib

/-!
Verification of the compression request handler in
`src/app/api/compress/route.ts` (the `POST` function).

The handler is shallowly embedded as a pure Lean function.  The external
codec library (`sharp`) is modelled as a record of deterministic oracles
supplied to the handler: `metadata` (format detection) and `encode`
(re-encoding with explicit options).  Fallible external calls return
`Except Unit _`; an `.error` models a thrown exception, which the
handler's single try/catch converts to a 500 response.  Besides the
response, the embedded handler returns the list of external operations it
performed, so that "the encoder is never invoked" style properties can be
stated.
-/

/-- Raw binary payloads (`Buffer` / `File` contents) as lists of byte
values. -/
abbrev Bytes := List Nat

/-- The fields the handler reads from the parsed multipart form data:
`formData.get("image")` (a `File`, possibly absent) and
`formData.get("compressionLevel")` (a string, possibly absent). -/
structure FormData where
  image : Option Bytes
  compressionLevel : Option String
deriving DecidableEq

/-- The incoming `NextRequest`, reduced to the one operation the handler
performs on it: `await request.formData()`, which may throw. -/
structure CompressRequest where
  formData : Except Unit FormData

/-- The result of `sharp(buffer).metadata()`: only the `format` field is
consulted by the handler.  `none` models `undefined`. -/
structure Metadata where
  format : Option String
deriving DecidableEq

/-- An encoder invocation, recording which of `sharp`'s encoders is called
and with which options, mirroring `.jpeg({ quality, mozjpeg: true })`,
`.png({ quality, compressionLevel: 9 })` and `.webp({ quality })`. -/
inductive EncodeOp where
  | jpeg (quality : Nat) (mozjpeg : Bool)
  | png (quality : Nat) (compressionLevel : Nat)
  | webp (quality : Nat)
deriving DecidableEq

/-- The codec library (`sharp`), modelled as deterministic oracles.
`metadata` models `sharp(buffer).metadata()`; `encode` models running the
selected encoder over the same input buffer and returning the re-encoded
bytes.  `.error` models a thrown exception. -/
structure SharpLib where
  metadata : Bytes → Except Unit Metadata
  encode : Bytes → EncodeOp → Except Unit Bytes

/-- External operations performed by the handler, in order: buffering the
uploaded file (`Buffer.from(await image.arrayBuffer())`), format
detection, and an encoder invocation. -/
inductive Event where
  | buffered (bytes : Bytes)
  | metadataCall (bytes : Bytes)
  | encodeCall (bytes : Bytes) (op : EncodeOp)
deriving DecidableEq

/-- A response body: either `{ error }` or
`{ compressedDataUrl, size, format }`, matching the two JSON shapes the
handler produces. -/
inductive Body where
  | error (message : String)
  | success (compressedDataUrl : String) (size : Nat) (format : String)
deriving DecidableEq

/-- An HTTP response: status code plus JSON body. -/
structure Response where
  status : Nat
  body : Body
deriving DecidableEq

/-- The `switch (compressionLevel)` statement resolving the quality:
`"low" → 80`, `"high" → 40`, default (including `"medium"`, any other
string, and an absent value, which `formData.get` returns as `null`)
`→ 60`. -/
def resolveQuality : Option String → Nat
  | some "low" => 80
  | some "high" => 40
  | _ => 60

/-- JavaScript falsiness of `metadata.format` (a `string | undefined`):
`!metadata.format` is true for `undefined` and for the empty string. -/
def falsyFormat : Option String → Bool
  | none => true
  | some s => s.isEmpty

/-- The `switch (format)` statement selecting the encoder invocation:
`"jpeg"`/`"jpg"` use the jpeg encoder with `mozjpeg: true`, `"png"` the
png encoder with `compressionLevel: 9`, `"webp"` the webp encoder, and
every other format falls through to the webp encoder. -/
def dispatchOp (format : String) (quality : Nat) : EncodeOp :=
  match format with
  | "jpeg" => .jpeg quality true
  | "jpg" => .jpeg quality true
  | "png" => .png quality 9
  | "webp" => .webp quality
  | _ => .webp quality

/-- The standard base64 alphabet used by `Buffer.toString("base64")`. -/
def base64Chars : List Char :=
  "ABCDEFGHIJKLMNOPQRSTUVWXYZabcdefghijklmnopqrstuvwxyz0123456789+/".toList

/-- The base64 digit for a 6-bit value. -/
def b64Char (n : Nat) : Char := base64Chars.getD n '='

/-- The 6-bit value of a base64 digit. -/
def b64Val (c : Char) : Nat := base64Chars.indexOf c

/-- `Buffer.toString("base64")`: standard base64 with `=` padding. -/
def base64Encode : List Nat → List Char
  | [] => []
  | [a] => [b64Char (a / 4), b64Char (a % 4 * 16), '=', '=']
  | [a, b] =>
      [b64Char (a / 4), b64Char (a % 4 * 16 + b / 16), b64Char (b % 16 * 4), '=']
  | a :: b :: c :: rest =>
      b64Char (a / 4) :: b64Char (a % 4 * 16 + b / 16) ::
        b64Char (b % 16 * 4 + c / 64) :: b64Char (c % 64) :: base64Encode rest

/-- Inverse of `base64Encode` on well-formed base64 text. -/
def base64Decode : List Char → List Nat
  | c1 :: c2 :: c3 :: c4 :: rest =>
      if c3 = '=' ∧ c4 = '=' ∧ rest = [] then
        [b64Val c1 * 4 + b64Val c2 / 16]
      else if c4 = '=' ∧ rest = [] then
        [b64Val c1 * 4 + b64Val c2 / 16, b64Val c2 % 16 * 16 + b64Val c3 / 4]
      else
        (b64Val c1 * 4 + b64Val c2 / 16) :: (b64Val c2 % 16 * 16 + b64Val c3 / 4) ::
          (b64Val c3 % 4 * 64 + b64Val c4) :: base64Decode rest
  | _ => []

/-- The `compressedDataUrl` template literal:
`` `data:image/${format};base64,${processedBuffer.toString("base64")}` ``.
Note that it interpolates the *detected* `format`, not the format of the
encoder that actually ran. -/
def dataUrl (format : String) (processedBuffer : Bytes) : String :=
  "data:image/" ++ format ++ ";base64," ++ String.mk (base64Encode processedBuffer)

/-- The `POST` handler of `src/app/api/compress/route.ts`, returning the
response together with the list of external operations performed.  All
code runs inside a single try/catch whose catch arm returns
`{ error: "Failed to process image" }` with status 500. -/
def POST (lib : SharpLib) (request : CompressRequest) : Response × List Event :=
  match request.formData with
  | .error _ => (⟨500, .error "Failed to process image"⟩, [])
  | .ok formData =>
    match formData.image with
    | none => (⟨400, .error "No image file provided"⟩, [])
    | some buffer =>
      let quality := resolveQuality formData.compressionLevel
      match lib.metadata buffer with
      | .error _ =>
          (⟨500, .error "Failed to process image"⟩,
           [.buffered buffer, .metadataCall buffer])
      | .ok metadata =>
        if falsyFormat metadata.format then
          (⟨400, .error "Invalid image format"⟩,
           [.buffered buffer, .metadataCall buffer])
        else
          let format := metadata.format.getD ""
          let op := dispatchOp format quality
          match lib.encode buffer op with
          | .error _ =>
              (⟨500, .error "Failed to process image"⟩,
               [.buffered buffer, .metadataCall buffer, .encodeCall buffer op])
          | .ok processedBuffer =>
              (⟨200, .success (dataUrl format processedBuffer)
                       processedBuffer.length format⟩,
               [.buffered buffer, .metadataCall buffer, .encodeCall buffer op])

/-- A codec oracle that detects every input as a gif and encodes to the
three bytes `[1, 2, 3]`. -/
def gifLib : SharpLib where
  metadata := fun _ => .ok ⟨some "gif"⟩
  encode := fun _ _ => .ok [1, 2, 3]

/-- A request carrying a gif file (`GIF8` magic) at the medium tier. -/
def gifRequest : CompressRequest := ⟨.ok ⟨some [71, 73, 70, 56], some "medium"⟩⟩

/-- A codec oracle that detects every input as a tiff and encodes to the
two bytes `[77, 200]`. -/
def tiffLib : SharpLib where
  metadata := fun _ => .ok ⟨some "tiff"⟩
  encode := fun _ _ => .ok [77, 200]

/-- A request carrying a tiff file (`II*\0` magic) with no tier field. -/
def tiffRequest : CompressRequest := ⟨.ok ⟨some [73, 73, 42, 0], none⟩⟩

/-- A codec oracle whose format detection finds no format. -/
def noFormatLib : SharpLib where
  metadata := fun _ => .ok ⟨none⟩
  encode := fun _ _ => .ok []

/-- A request carrying two bytes that are not an image. -/
def rawRequest : CompressRequest := ⟨.ok ⟨some [0, 1], some "low"⟩⟩

/-- A codec oracle whose calls all throw. -/
def throwLib : SharpLib where
  metadata := fun _ => .error ()
  encode := fun _ _ => .error ()

/-- A request whose form-data parsing throws. -/
def badRequest : CompressRequest := ⟨.error ()⟩

/-- A request with no `image` field at the low tier. -/
def emptyRequest : CompressRequest := ⟨.ok ⟨none, some "low"⟩⟩

/-- Shape lemma: every run of the handler produces exactly one response,
and it is a 200 with a full success body, a 400 with an error body, or a
500 with the generic error body. -/
theorem post_shape (lib : SharpLib) (request : CompressRequest) :
    ((POST lib request).1.status = 200 ∧
      ∃ u s f, (POST lib request).1.body = Body.success u s f) ∨
    ((POST lib request).1.status = 400 ∧
      ∃ m, (POST lib request).1.body = Body.error m) ∨
    ((POST lib request).1.status = 500 ∧
      (POST lib request).1.body = Body.error "Failed to process image") := by
  rcases hfd : request.formData with e | fd
  · right; right; simp [POST, hfd]
  rcases himg : fd.image with _ | b
  · right; left; simp [POST, hfd, himg]
  rcases hmd : lib.metadata b with e | md
  · right; right; simp [POST, hfd, himg, hmd]
  by_cases hf : falsyFormat md.format
  · right; left; simp [POST, hfd, himg, hmd, hf]
  rcases henc : lib.encode b
      (dispatchOp (md.format.getD "") (resolveQuality fd.compressionLevel)) with e | pb
  · right; right; simp [POST, hfd, himg, hmd, hf, henc]
  · left; simp [POST, hfd, himg, hmd, hf, henc]

/-- Claim C2: the quality resolver maps `"low"` to 80, `"medium"` to 60,
`"high"` to 40, and every other value — any unrecognized string as well as
an absent field — to 60, totally (no error is possible: `resolveQuality`
is a total function). -/
theorem resolveQuality_spec :
    resolveQuality (some "low") = 80 ∧ resolveQuality (some "medium") = 60 ∧
    resolveQuality (some "high") = 40 ∧ resolveQuality none = 60 ∧
    ∀ t : String, t ∉ (["low", "medium", "high"] : List String) →
      resolveQuality (some t) = 60 := by
  refine ⟨rfl, rfl, rfl, rfl, ?_⟩
  intro t ht
  simp only [List.mem_cons, List.not_mem_nil, or_false, not_or] at ht
  obtain ⟨h1, h2, h3⟩ := ht
  unfold resolveQuality
  split <;> simp_all

/-- Witness for C2 at the unrecognized tier `"banana"`. -/
theorem resolveQuality_spec_witness :
    resolveQuality (some "banana") = 60 :=
  resolveQuality_spec.2.2.2.2 "banana" (by decide)

/-- Claim C4: the encoder invocation is a function of the detected format
and resolved quality alone: jpeg/jpg inputs use the jpeg encoder at the
resolved quality with `mozjpeg: true`, png inputs the png encoder at the
resolved quality with `compressionLevel: 9`, webp inputs the webp encoder
at the resolved quality, and every other format the webp encoder at the
resolved quality; moreover every encoder call the handler makes is
exactly `dispatchOp` of the detected format and resolved quality. -/
theorem dispatchOp_spec :
    (∀ q : Nat,
      dispatchOp "jpeg" q = .jpeg q true ∧ dispatchOp "jpg" q = .jpeg q true ∧
      dispatchOp "png" q = .png q 9 ∧ dispatchOp "webp" q = .webp q ∧
      ∀ f : String, f ∉ (["jpeg", "jpg", "png", "webp"] : List String) →
        dispatchOp f q = .webp q) ∧
    ∀ (lib : SharpLib) (request : CompressRequest) (b : Bytes) (op : EncodeOp),
      Event.encodeCall b op ∈ (POST lib request).2 →
      ∃ fd md fmt, request.formData = .ok fd ∧ fd.image = some b ∧
        lib.metadata b = .ok md ∧ md.format = some fmt ∧
        op = dispatchOp fmt (resolveQuality fd.compressionLevel) := by
  constructor
  · intro q
    refine ⟨rfl, rfl, rfl, rfl, ?_⟩
    intro f hf
    simp only [List.mem_cons, List.not_mem_nil, or_false, not_or] at hf
    obtain ⟨h1, h2, h3, h4⟩ := hf
    unfold dispatchOp
    split <;> simp_all
  · intro lib request b op hmem
    rcases hfd : request.formData with e | fd
    · simp [POST, hfd] at hmem
    rcases himg : fd.image with _ | b0
    · simp [POST, hfd, himg] at hmem
    rcases hmd : lib.metadata b0 with e | md
    · simp [POST, hfd, himg, hmd] at hmem
    by_cases hf : falsyFormat md.format
    · simp [POST, hfd, himg, hmd, hf] at hmem
    rcases hfmt : md.format with _ | s
    · rw [hfmt] at hf; simp [falsyFormat] at hf
    rcases henc : lib.encode b0
        (dispatchOp (md.format.getD "") (resolveQuality fd.compressionLevel)) with e | pb
    · simp [POST, hfd, himg, hmd, hf, henc] at hmem
      obtain ⟨hb, hop⟩ := hmem
      subst hb
      refine ⟨fd, md, s, rfl, himg, hmd, hfmt, ?_⟩
      rw [hop, hfmt]
      simp
    · simp [POST, hfd, himg, hmd, hf, henc] at hmem
      obtain ⟨hb, hop⟩ := hmem
      subst hb
      refine ⟨fd, md, s, rfl, himg, hmd, hfmt, ?_⟩
      rw [hop, hfmt]
      simp

/-- Witness for C4: the fallback arm at the unrecognized format `"gif"`,
and the encoder call the handler makes on `gifRequest`. -/
theorem dispatchOp_spec_witness :
    dispatchOp "gif" 60 = EncodeOp.webp 60 ∧
    ∃ fd md fmt, gifRequest.formData = .ok fd ∧ fd.image = some [71, 73, 70, 56] ∧
      gifLib.metadata [71, 73, 70, 56] = .ok md ∧ md.format = some fmt ∧
      EncodeOp.webp 60 = dispatchOp fmt (resolveQuality fd.compressionLevel) :=
  ⟨dispatchOp_spec.1 60 |>.2.2.2.2 "gif" (by decide),
   dispatchOp_spec.2 gifLib gifRequest [71, 73, 70, 56] (.webp 60) (by decide)⟩

/-- Claim C5: a request with no file payload is answered with a 400 and
the message "No image file provided", and the trace of external
operations is empty: the bytes are never buffered, format detection never
runs, and no encoder is invoked. -/
theorem post_missing_input (lib : SharpLib) (request : CompressRequest)
    (fd : FormData) (h1 : request.formData = .ok fd) (h2 : fd.image = none) :
    POST lib request = (⟨400, .error "No image file provided"⟩, []) := by
  simp [POST, h1, h2]

/-- Witness for C5 on a concrete empty upload. -/
theorem post_missing_input_witness :
    POST gifLib emptyRequest = (⟨400, .error "No image file provided"⟩, []) :=
  post_missing_input gifLib emptyRequest ⟨none, some "low"⟩ rfl rfl

/-- Claim C3: when format detection yields no format (the bytes are not
decodable as any known image), the handler answers 400 with
"Invalid image format"; the trace contains only the buffering and
detection events — no encoder invocation — and the body is a bare error
with no encoded bytes, size, or format field. -/
theorem post_invalid_format (lib : SharpLib) (request : CompressRequest)
    (fd : FormData) (b : Bytes) (md : Metadata)
    (h1 : request.formData = .ok fd) (h2 : fd.image = some b)
    (h3 : lib.metadata b = .ok md) (h4 : md.format = none) :
    POST lib request =
      (⟨400, .error "Invalid image format"⟩,
       [Event.buffered b, Event.metadataCall b]) := by
  simp [POST, h1, h2, h3, h4, falsyFormat]

/-- Witness for C3 on a concrete non-image upload. -/
theorem post_invalid_format_witness :
    POST noFormatLib rawRequest =
      (⟨400, .error "Invalid image format"⟩,
       [Event.buffered [0, 1], Event.metadataCall [0, 1]]) :=
  post_invalid_format noFormatLib rawRequest ⟨some [0, 1], some "low"⟩ [0, 1]
    ⟨none⟩ rfl rfl rfl rfl

/-- Claim C7: every fault raised by an external call — form-data parsing,
format detection, or encoding — is caught and answered with a 500 whose
body is exactly the generic message "Failed to process image"; every 500
carries only that message, and every non-200 response is a bare error
body, so no partial success output is ever produced. -/
theorem post_fault_containment (lib : SharpLib) (request : CompressRequest) :
    (∀ e : Unit, request.formData = .error e →
      POST lib request = (⟨500, .error "Failed to process image"⟩, [])) ∧
    (∀ (fd : FormData) (b : Bytes) (e : Unit),
      request.formData = .ok fd → fd.image = some b →
      lib.metadata b = .error e →
      (POST lib request).1 = ⟨500, .error "Failed to process image"⟩) ∧
    (∀ (fd : FormData) (b : Bytes) (md : Metadata) (e : Unit),
      request.formData = .ok fd → fd.image = some b →
      lib.metadata b = .ok md → falsyFormat md.format = false →
      lib.encode b (dispatchOp (md.format.getD "")
        (resolveQuality fd.compressionLevel)) = .error e →
      (POST lib request).1 = ⟨500, .error "Failed to process image"⟩) ∧
    ((POST lib request).1.status = 500 →
      (POST lib request).1.body = Body.error "Failed to process image") ∧
    ((POST lib request).1.status ≠ 200 →
      ∃ m, (POST lib request).1.body = Body.error m) := by
  refine ⟨?_, ?_, ?_, ?_, ?_⟩
  · intro e h
    simp [POST, h]
  · intro fd b e h1 h2 h3
    simp [POST, h1, h2, h3]
  · intro fd b md e h1 h2 h3 h4 h5
    simp [POST, h1, h2, h3, h4, h5]
  · intro h
    rcases post_shape lib request with ⟨h200, _⟩ | ⟨h400, _⟩ | ⟨_, hbody⟩
    · rw [h200] at h; exact absurd h (by decide)
    · rw [h400] at h; exact absurd h (by decide)
    · exact hbody
  · intro h
    rcases post_shape lib request with ⟨h200, _⟩ | ⟨_, hm⟩ | ⟨_, hbody⟩
    · exact absurd h200 h
    · exact hm
    · exact ⟨"Failed to process image", hbody⟩

/-- Witness for C7: a throwing form-data parse and a throwing detector
both yield the generic 500. -/
theorem post_fault_containment_witness :
    POST throwLib badRequest = (⟨500, .error "Failed to process image"⟩, []) ∧
    (POST throwLib rawRequest).1 = ⟨500, .error "Failed to process image"⟩ :=
  ⟨(post_fault_containment throwLib badRequest).1 () rfl,
   (post_fault_containment throwLib rawRequest).2.1
     ⟨some [0, 1], some "low"⟩ [0, 1] () rfl rfl rfl⟩

/-- Claim C10: the handler is total at its public interface: every run
returns exactly one response, whose status is 200 with a full success
body (`compressedDataUrl`, `size`, `format`), 400 with an error-only
body, or 500 with an error-only body; no other outcome exists because the
whole body of the handler, form parsing included, is modelled inside the
single try/catch. -/
theorem post_total (lib : SharpLib) (request : CompressRequest) :
    ((POST lib request).1.status = 200 ∧
      ∃ u s f, (POST lib request).1.body = Body.success u s f) ∨
    ((POST lib request).1.status = 400 ∧
      ∃ m, (POST lib request).1.body = Body.error m) ∨
    ((POST lib request).1.status = 500 ∧
      ∃ m, (POST lib request).1.body = Body.error m) := by
  rcases post_shape lib request with h | h | ⟨h500, hbody⟩
  · exact Or.inl h
  · exact Or.inr (Or.inl h)
  · exact Or.inr (Or.inr ⟨h500, "Failed to process image", hbody⟩)

/-- Claim C8: the handler is stateless and deterministic: it is a pure
function of the request and the (deterministic) codec oracles, so two
requests carrying identical image bytes and identical compression-level
fields receive identical responses and traces, and running the format
detector twice on identical bytes yields the identical result. -/
theorem post_deterministic (lib : SharpLib) (r1 r2 : CompressRequest)
    (fd1 fd2 : FormData) (h1 : r1.formData = .ok fd1) (h2 : r2.formData = .ok fd2)
    (himg : fd1.image = fd2.image)
    (hlvl : fd1.compressionLevel = fd2.compressionLevel) :
    POST lib r1 = POST lib r2 ∧
    ∀ b : Bytes, lib.metadata b = lib.metadata b := by
  have hfd : fd1 = fd2 := by
    cases fd1; cases fd2; simp_all
  subst hfd
  constructor
  · simp [POST, h1, h2]
  · intro b; rfl

/-- Witness for C8: two syntactically distinct requests with equal
contents receive equal outputs. -/
theorem post_deterministic_witness :
    POST gifLib (CompressRequest.mk (.ok ⟨some [10, 20], some "high"⟩)) =
      POST gifLib (CompressRequest.mk (.ok ⟨some [10, 20], some "high"⟩)) :=
  (post_deterministic gifLib ⟨.ok ⟨some [10, 20], some "high"⟩⟩
    ⟨.ok ⟨some [10, 20], some "high"⟩⟩ ⟨some [10, 20], some "high"⟩
    ⟨some [10, 20], some "high"⟩ rfl rfl rfl rfl).1

/-- Claim C1 (code bug): on a gif upload the handler *encodes* to webp
(the trace shows a webp encoder call), yet the response reports
`format = "gif"` and a `data:image/gif` MIME in the data URL, instead of
the `webp` the claim and spec require. -/
theorem post_gif_reports_source_format :
    (POST gifLib gifRequest).1 =
      ⟨200, Body.success "data:image/gif;base64,AQID" 3 "gif"⟩ ∧
    Event.encodeCall [71, 73, 70, 56] (EncodeOp.webp 60) ∈
      (POST gifLib gifRequest).2 ∧
    "gif" ≠ "webp" := by
  refine ⟨by decide, by decide, by decide⟩

/-- Claim C6 (code bug): on a tiff upload the reported `size` does equal
the length of the re-encoded payload, and the base64 payload decodes back
to exactly those bytes, but the data URL's MIME subtype is the detected
`tiff`, not the `webp` that was actually produced (the trace shows a webp
encoder call). -/
theorem post_tiff_dataUrl_mislabels_payload :
    (POST tiffLib tiffRequest).1.body =
      Body.success ("data:image/tiff;base64," ++
        String.mk (base64Encode [77, 200])) 2 "tiff" ∧
    ([77, 200] : Bytes).length = 2 ∧
    base64Decode (base64Encode [77, 200]) = [77, 200] ∧
    Event.encodeCall [73, 73, 42, 0] (EncodeOp.webp 60) ∈
      (POST tiffLib tiffRequest).2 ∧
    "tiff" ≠ "webp" := by
  refine ⟨by decide, by decide, by decide, by decide, by decide⟩
